import Mathlib

/-!
Shallow embedding of the ECMO cost-effectiveness engine
(`econ/cost_effectiveness.py`, class `ECMOCostEffectivenessAnalysis`).

Python floats are modelled as rationals (`ℚ`); values that may be the
`float('inf')` / `float('-inf')` sentinels are modelled by `EFloat`.
The model object's mutable attributes are modelled by explicit state
passing of a `Model` value.  `time_horizon_years` is modelled as a
natural number of years (the source stores a float and uses it as an
exponent; every analysed code path uses whole years).
-/

namespace ECMO

/-- Result type for ratio computations: a finite rational or one of the
two infinity sentinels produced by `float('inf')` / `float('-inf')`. -/
inductive EFloat where
  | finite (q : ℚ)
  | posInf
  | negInf
deriving DecidableEq

/-- Python `int(x)` on a float: truncation toward zero. -/
def pyInt (q : ℚ) : ℤ :=
  if q < 0 then -(Int.floor (-q)) else Int.floor q

/-- The mutable configuration attributes of `ECMOCostEffectivenessAnalysis`
set in `__init__` (the currency / NHI fields are not needed by any claim). -/
structure Model where
  icu_cost_per_day : ℚ
  ward_cost_per_day : ℚ
  ecmo_daily_consumable : ℚ
  ecmo_setup_cost : ℚ
  qaly_gain_per_survivor : ℚ
  time_horizon_years : ℕ
  discount_rate : ℚ
deriving DecidableEq

/-- The constructor defaults: 30000, 8000, 15000, 100000, 1.5, 1 year, 0.03. -/
def defaultModel : Model :=
  ⟨30000, 8000, 15000, 100000, 3/2, 1, 3/100⟩

/-- `compute_total_cost`: icu + ward + (setup + daily consumables). -/
def compute_total_cost (m : Model) (icu_los_days ward_los_days ecmo_days : ℚ) : ℚ :=
  let icu_cost := icu_los_days * m.icu_cost_per_day
  let ward_cost := ward_los_days * m.ward_cost_per_day
  let ecmo_cost := m.ecmo_setup_cost + ecmo_days * m.ecmo_daily_consumable
  icu_cost + ward_cost + ecmo_cost

/-- `compute_qaly`: survival * qaly_gain * quality_of_life * discount factor. -/
def compute_qaly (m : Model) (survival_rate quality_of_life : ℚ) : ℚ :=
  let discount_factor := 1 / (1 + m.discount_rate) ^ m.time_horizon_years
  survival_rate * m.qaly_gain_per_survivor * quality_of_life * discount_factor

/-- `compute_cer`: `float('inf')` when qaly ≤ 0, else cost / qaly. -/
def compute_cer (total_cost qaly : ℚ) : EFloat :=
  if qaly ≤ 0 then .posInf else .finite (total_cost / qaly)

/-- `compute_icer`: on Δqaly ≤ 0 return `+∞` if Δcost > 0 else `-∞`,
otherwise Δcost / Δqaly. -/
def compute_icer (cost_intervention cost_comparator qaly_intervention qaly_comparator : ℚ) :
    EFloat :=
  let delta_cost := cost_intervention - cost_comparator
  let delta_qaly := qaly_intervention - qaly_comparator
  if delta_qaly ≤ 0 then
    if delta_cost > 0 then .posInf else .negInf
  else
    .finite (delta_cost / delta_qaly)

/-- The four keys of the base-case dictionary passed to the sensitivity
engines (`icu_los`, `ward_los`, `ecmo_days`, `survival_rate`) together with
the configuration attributes a parameter name may address through the
`setattr` branch. -/
inductive ParamName where
  | icu_los
  | ward_los
  | ecmo_days
  | survival_rate
  | icu_cost_per_day
  | ward_cost_per_day
  | ecmo_daily_consumable
  | ecmo_setup_cost
  | qaly_gain_per_survivor
  | discount_rate
deriving DecidableEq

/-- The base-case dictionary (icu_los, ward_los, ecmo_days, survival_rate). -/
structure Case where
  icu_los : ℚ
  ward_los : ℚ
  ecmo_days : ℚ
  survival_rate : ℚ
deriving DecidableEq

/-- Whether a parameter name is one of the four base-case dict keys
(the membership test `param_name in ['icu_los', 'ward_los', 'ecmo_days',
'survival_rate']`, equivalently `param_name in sim_case` for a copy of the
base case). -/
def isCaseKey : ParamName → Bool
  | .icu_los => true
  | .ward_los => true
  | .ecmo_days => true
  | .survival_rate => true
  | _ => false

/-- `case[param_name] = value` for the four case keys, and
`setattr(self, param_name, value)` for configuration parameters: returns
the (possibly mutated) model together with the (possibly updated) case. -/
def applyParam (m : Model) (c : Case) (p : ParamName) (v : ℚ) : Model × Case :=
  match p with
  | .icu_los => (m, ⟨v, c.ward_los, c.ecmo_days, c.survival_rate⟩)
  | .ward_los => (m, ⟨c.icu_los, v, c.ecmo_days, c.survival_rate⟩)
  | .ecmo_days => (m, ⟨c.icu_los, c.ward_los, v, c.survival_rate⟩)
  | .survival_rate => (m, ⟨c.icu_los, c.ward_los, c.ecmo_days, v⟩)
  | .icu_cost_per_day =>
      (⟨v, m.ward_cost_per_day, m.ecmo_daily_consumable, m.ecmo_setup_cost,
        m.qaly_gain_per_survivor, m.time_horizon_years, m.discount_rate⟩, c)
  | .ward_cost_per_day =>
      (⟨m.icu_cost_per_day, v, m.ecmo_daily_consumable, m.ecmo_setup_cost,
        m.qaly_gain_per_survivor, m.time_horizon_years, m.discount_rate⟩, c)
  | .ecmo_daily_consumable =>
      (⟨m.icu_cost_per_day, m.ward_cost_per_day, v, m.ecmo_setup_cost,
        m.qaly_gain_per_survivor, m.time_horizon_years, m.discount_rate⟩, c)
  | .ecmo_setup_cost =>
      (⟨m.icu_cost_per_day, m.ward_cost_per_day, m.ecmo_daily_consumable, v,
        m.qaly_gain_per_survivor, m.time_horizon_years, m.discount_rate⟩, c)
  | .qaly_gain_per_survivor =>
      (⟨m.icu_cost_per_day, m.ward_cost_per_day, m.ecmo_daily_consumable,
        m.ecmo_setup_cost, v, m.time_horizon_years, m.discount_rate⟩, c)
  | .discount_rate =>
      (⟨m.icu_cost_per_day, m.ward_cost_per_day, m.ecmo_daily_consumable,
        m.ecmo_setup_cost, m.qaly_gain_per_survivor, m.time_horizon_years, v⟩, c)

/-- One output row of the one-way sensitivity analysis. -/
structure SensRow where
  parameter : ParamName
  scenario : String
  value : ℚ
  total_cost : ℚ
  qaly : ℚ
  cer : EFloat
deriving DecidableEq

/-- One scenario evaluation of the one-way loop body: copy the base case,
substitute the parameter (into the copy or the shared model), recompute
total_cost / qaly / cer.  Returns the model state after the `setattr`
together with the appended row. -/
def sensScenario (m : Model) (base : Case) (p : ParamName) (v : ℚ) (scen : String) :
    Model × SensRow :=
  let mc := applyParam m base p v
  let tc := compute_total_cost mc.1 mc.2.icu_los mc.2.ward_los mc.2.ecmo_days
  let q := compute_qaly mc.1 mc.2.survival_rate 1
  (mc.1, ⟨p, scen, v, tc, q, compute_cer tc q⟩)

/-- The row a scenario produces (the second component of `sensScenario`). -/
def sensRowAt (m : Model) (base : Case) (p : ParamName) (v : ℚ) (scen : String) :
    SensRow :=
  (sensScenario m base p v scen).2

/-- `sensitivity_analysis`: for each parameter in order, evaluate the low,
base and high scenarios; model mutations thread through every later
scenario and are returned in the first component (the object state after
the call). -/
def sensitivity_analysis (m : Model) (base : Case) :
    List (ParamName × ℚ × ℚ × ℚ) → Model × List SensRow
  | [] => (m, [])
  | (p, lo, bas, hi) :: rest =>
    let s1 := sensScenario m base p lo ("low")
    let s2 := sensScenario s1.1 base p bas ("base")
    let s3 := sensScenario s2.1 base p hi ("high")
    let r := sensitivity_analysis s3.1 base rest
    (r.1, s1.2 :: s2.2 :: s3.2 :: r.2)

/-- Abstract deterministic model of numpy's global random generator.  The
Mersenne Twister behind `np.random` is a deterministic state machine whose
state is fully determined by `np.random.seed`; the exact numeric transforms
of its distribution samplers are irrelevant to the claims analysed here, so
they are replaced by a simple deterministic surrogate generator.  The model
preserves faithfully that seeding overwrites the global state, that every
draw is a pure state transition, and that draws happen in program order. -/
abbrev RngState : Type := ℕ

/-- `np.random.seed(seed)`: the global state becomes a function of the seed
alone (the previous state is discarded). -/
def seedRng (seed : ℕ) : RngState := seed + 1

/-- One step of the surrogate generator (a linear congruential step)
yielding a rational in [0, 1) and the successor state. -/
def unitDraw (g : RngState) : ℚ × RngState :=
  let g2 := (1103515245 * g + 12345) % 2 ^ 31
  (((g2 % 1024 : ℕ) : ℚ) / 1024, g2)

/-- Surrogate for `np.random.normal(mean, std)`. -/
def randNormal (mean std : ℚ) (g : RngState) : ℚ × RngState :=
  let u := unitDraw g
  (mean + std * (2 * u.1 - 1), u.2)

/-- Surrogate for `np.random.lognormal(mean, std)`. -/
def randLognormal (mean std : ℚ) (g : RngState) : ℚ × RngState :=
  let u := unitDraw g
  ((1 + u.1) * (1 + std) + mean, u.2)

/-- Surrogate for `np.random.gamma(shape, scale)`. -/
def randGamma (shape scale : ℚ) (g : RngState) : ℚ × RngState :=
  let u := unitDraw g
  (shape * scale * (1 + u.1), u.2)

/-- Surrogate for `np.random.beta(alpha, beta)`. -/
def randBeta (a b : ℚ) (g : RngState) : ℚ × RngState :=
  let u := unitDraw g
  (u.1 * a / (a + b + 1), u.2)

/-- Surrogate for `np.random.uniform(low, high)`. -/
def randUniform (lo hi : ℚ) (g : RngState) : ℚ × RngState :=
  let u := unitDraw g
  (lo + (hi - lo) * u.1, u.2)

/-- A declared parameter distribution: `(dist_type, params)`.  The
`unknown` constructor carries any `dist_type` string outside the five
recognized kinds, together with its (ignored) parameter tuple. -/
inductive Dist where
  | normal (mean std : ℚ)
  | lognormal (mean std : ℚ)
  | gamma (shape scale : ℚ)
  | beta (a b : ℚ)
  | uniform (lo hi : ℚ)
  | unknown (kind : String) (params : List ℚ)
deriving DecidableEq

/-- The message of `warnings.warn(f"Unknown distribution type: {dist_type}")`. -/
def unknownMsg (kind : String) : String :=
  "Unknown distribution type: " ++ kind

/-- The clamp applied to a sampled value: survival_rate is clipped into
[0.001, 0.999], every other parameter is floored at 0.001. -/
def clampParam (p : ParamName) (v : ℚ) : ℚ :=
  if p = .survival_rate then min (max v (1/1000)) (999/1000)
  else max (1/1000) v

/-- The per-iteration sampling loop of the PSA: for each declared
parameter in order, dispatch on the distribution kind, draw, clamp, and
substitute into the case copy or the shared model (`applyParam`); an
unrecognized kind emits a warning and is skipped (`continue`): no draw, no
clamp, no substitution.  Returns (model, case, generator, warnings). -/
def psaSampleParams (m : Model) (c : Case) (g : RngState) :
    List (ParamName × Dist) → Model × Case × RngState × List String
  | [] => (m, c, g, [])
  | (p, .normal mean std) :: rest =>
    let vg := randNormal mean std g
    let mc := applyParam m c p (clampParam p vg.1)
    psaSampleParams mc.1 mc.2 vg.2 rest
  | (p, .lognormal mean std) :: rest =>
    let vg := randLognormal mean std g
    let mc := applyParam m c p (clampParam p vg.1)
    psaSampleParams mc.1 mc.2 vg.2 rest
  | (p, .gamma shape scale) :: rest =>
    let vg := randGamma shape scale g
    let mc := applyParam m c p (clampParam p vg.1)
    psaSampleParams mc.1 mc.2 vg.2 rest
  | (p, .beta a b) :: rest =>
    let vg := randBeta a b g
    let mc := applyParam m c p (clampParam p vg.1)
    psaSampleParams mc.1 mc.2 vg.2 rest
  | (p, .uniform lo hi) :: rest =>
    let vg := randUniform lo hi g
    let mc := applyParam m c p (clampParam p vg.1)
    psaSampleParams mc.1 mc.2 vg.2 rest
  | (_, .unknown kind _) :: rest =>
    let r := psaSampleParams m c g rest
    (r.1, r.2.1, r.2.2.1, unknownMsg kind :: r.2.2.2)

/-- The warnings the sampling loop emits: one per unrecognized kind, in
order, independent of the generator and model state. -/
def warnMsgs : List (ParamName × Dist) → List String
  | [] => []
  | (_, .unknown kind _) :: rest => unknownMsg kind :: warnMsgs rest
  | _ :: rest => warnMsgs rest

/-- One output row of the PSA (`iteration`, outcomes, NMB at the fixed
willingness-to-pay grid {500k, 1M, 1.5M, 2M, 3M}). -/
structure PSAIter where
  iteration : ℕ
  total_cost : ℚ
  qaly : ℚ
  cer : EFloat
  nmb_wtp_500000 : ℚ
  nmb_wtp_1000000 : ℚ
  nmb_wtp_1500000 : ℚ
  nmb_wtp_2000000 : ℚ
  nmb_wtp_3000000 : ℚ
deriving DecidableEq

/-- Outcomes of one PSA iteration from the sampled model and case. -/
def psaIterRow (i : ℕ) (m : Model) (c : Case) : PSAIter :=
  let tc := compute_total_cost m c.icu_los c.ward_los c.ecmo_days
  let q := compute_qaly m c.survival_rate 1
  ⟨i, tc, q, compute_cer tc q,
    500000 * q - tc, 1000000 * q - tc, 1500000 * q - tc,
    2000000 * q - tc, 3000000 * q - tc⟩

/-- The PSA iteration loop: each iteration copies the base case, samples
every declared parameter (model mutations persist into later iterations),
and appends a row.  Arguments: model, generator, iteration index,
remaining iteration count. -/
def psaLoop (base : Case) (dists : List (ParamName × Dist)) :
    Model → RngState → ℕ → ℕ → List PSAIter × Model × RngState × List String
  | m, g, _, 0 => ([], m, g, [])
  | m, g, i, k + 1 =>
    let s := psaSampleParams m base g dists
    let row := psaIterRow i s.1 s.2.1
    let r := psaLoop base dists s.1 s.2.2.1 (i + 1) k
    (row :: r.1, r.2.1, r.2.2.1, s.2.2.2 ++ r.2.2.2)

/-- `probabilistic_sensitivity_analysis`: `g0` is the global generator
state before the call; `np.random.seed(seed)` replaces it, so the run is a
function of the explicit arguments only.  Returns (iteration table, model
after the run, generator after the run, warnings). -/
def probabilistic_sensitivity_analysis (g0 : RngState) (m : Model) (base : Case)
    (dists : List (ParamName × Dist)) (n_simulations seed : ℕ) :
    List PSAIter × Model × RngState × List String :=
  psaLoop base dists m (seedRng seed) 0 n_simulations

/-- Arithmetic mean of a column (pandas `.mean()`); the claims apply it
only to nonempty tables. -/
def listMean (l : List ℚ) : ℚ := l.sum / (l.length : ℚ)

/-- Maximum of a column (pandas `.max()`); 0 on the empty list, which the
claims exclude. -/
def listMax : List ℚ → ℚ
  | [] => 0
  | x :: xs => xs.foldl max x

/-- The NMB series the VOI analysis uses: the stored column
`nmb_wtp_{int(wtp_threshold)}` when that column exists (the five fixed
thresholds), otherwise recomputed as `wtp*qaly - total_cost`. -/
def nmbSeries (rows : List PSAIter) (wtp : ℚ) : List ℚ :=
  if pyInt wtp = 500000 then rows.map PSAIter.nmb_wtp_500000
  else if pyInt wtp = 1000000 then rows.map PSAIter.nmb_wtp_1000000
  else if pyInt wtp = 1500000 then rows.map PSAIter.nmb_wtp_1500000
  else if pyInt wtp = 2000000 then rows.map PSAIter.nmb_wtp_2000000
  else if pyInt wtp = 3000000 then rows.map PSAIter.nmb_wtp_3000000
  else rows.map (fun r => wtp * r.qaly - r.total_cost)

/-- `sum([1 / (1 + discount_rate) ** t for t in range(time_horizon_years)])`. -/
def voiDiscountSum (r : ℚ) (horizon : ℕ) : ℚ :=
  ((List.range horizon).map (fun t => 1 / (1 + r) ^ t)).sum

/-- The dictionary returned by `value_of_information_analysis`. -/
structure VOIResult where
  evpi_per_person : ℚ
  evpi_population : ℚ
  expected_nmb : ℚ
  perfect_info_nmb : ℚ
  wtp_threshold : ℚ
  population_size : ℤ
  time_horizon_years : ℕ
deriving DecidableEq

/-- `value_of_information_analysis` (EVPI): expected NMB is the mean,
perfect-information NMB the max, EVPI per person their clamped difference,
and the population EVPI scales by population size and the discounted sum
over the horizon. -/
def value_of_information_analysis (m : Model) (psa_results : List PSAIter)
    (wtp_threshold : ℚ) (population_size : ℤ) (time_horizon_years : ℕ) :
    VOIResult :=
  let nmb := nmbSeries psa_results wtp_threshold
  let expected_nmb := listMean nmb
  let perfect_info_nmb := listMax nmb
  let evpi_per_person := max 0 (perfect_info_nmb - expected_nmb)
  let discount_factor := voiDiscountSum m.discount_rate time_horizon_years
  let evpi_population := evpi_per_person * (population_size : ℚ) * discount_factor
  ⟨evpi_per_person, evpi_population, expected_nmb, perfect_info_nmb,
    wtp_threshold, population_size, time_horizon_years⟩

/-- One row of the budget-impact projection. -/
structure BudgetYear where
  year : ℕ
  n_current_practice : ℤ
  n_new_intervention : ℤ
  uptake_rate : ℚ
  total_budget : ℚ
  incremental_budget : ℚ
  discounted_total_budget : ℚ
  discounted_incremental_budget : ℚ
  total_qaly : ℚ
  incremental_qaly : ℚ
  icer : EFloat
deriving DecidableEq

/-- The loop body of `budget_impact_analysis` for one (1-indexed) year:
capped linear uptake, truncated patient counts (`int(...)`), per-patient
costs and QALYs scaled by counts, discounting by `(1+r)^-(year-1)`, and
the per-year budget ICER with the `+∞` sentinel when the QALY gain is not
positive. -/
def budgetYearRow (m : Model) (cur scenNew : Case) (population_size : ℤ)
    (uptake_rate : ℚ) (years : ℕ) (year : ℕ) : BudgetYear :=
  let current_year_uptake := min (uptake_rate * ((year : ℚ) / (years : ℚ))) 1
  let n_current := pyInt ((population_size : ℚ) * (1 - current_year_uptake))
  let n_new := pyInt ((population_size : ℚ) * current_year_uptake)
  let cost_current := compute_total_cost m cur.icu_los cur.ward_los cur.ecmo_days
  let cost_new := compute_total_cost m scenNew.icu_los scenNew.ward_los scenNew.ecmo_days
  let total_budget := cost_current * (n_current : ℚ) + cost_new * (n_new : ℚ)
  let incremental_cost := (cost_new - cost_current) * (n_new : ℚ)
  let discount_factor := 1 / (1 + m.discount_rate) ^ (year - 1)
  let qaly_current := compute_qaly m cur.survival_rate 1 * (n_current : ℚ)
  let qaly_new := compute_qaly m scenNew.survival_rate 1 * (n_new : ℚ)
  let incremental_qaly :=
    (compute_qaly m scenNew.survival_rate 1 - compute_qaly m cur.survival_rate 1) *
      (n_new : ℚ)
  ⟨year, n_current, n_new, current_year_uptake, total_budget, incremental_cost,
    total_budget * discount_factor, incremental_cost * discount_factor,
    qaly_current + qaly_new, incremental_qaly,
    if 0 < incremental_qaly then .finite (incremental_cost / incremental_qaly)
    else .posInf⟩

/-- `budget_impact_analysis`: one `BudgetYear` per year 1..years. -/
def budget_impact_analysis (m : Model) (cur scenNew : Case) (population_size : ℤ)
    (uptake_rate : ℚ) (years : ℕ) : List BudgetYear :=
  (List.range years).map
    (fun k => budgetYearRow m cur scenNew population_size uptake_rate years (k + 1))

end ECMO

namespace ECMO

/-- The model component of `applyParam` does not depend on the case and,
applied twice to the same parameter, keeps only the second value. -/
theorem applyParam_model_overwrite (m : Model) (c c' c'' : Case) (p : ParamName) (a b : ℚ) :
    (applyParam (applyParam m c p a).1 c' p b).1 = (applyParam m c'' p b).1 := by
  cases p <;> rfl

/-- A case-key parameter never touches the model. -/
theorem applyParam_model_of_caseKey (m : Model) (c : Case) (p : ParamName) (v : ℚ)
    (h : isCaseKey p = true) : (applyParam m c p v).1 = m := by
  cases p <;> first
    | rfl
    | exact absurd h (by simp [isCaseKey])

/-- Claim C1: `compute_icer` returns `+∞` when Δqaly ≤ 0 and Δcost > 0,
`-∞` when Δqaly ≤ 0 and Δcost ≤ 0, and Δcost / Δqaly when Δqaly > 0. -/
theorem compute_icer_spec (ca cb qa qb : ℚ) :
    (qa - qb ≤ 0 → 0 < ca - cb → compute_icer ca cb qa qb = .posInf) ∧
    (qa - qb ≤ 0 → ca - cb ≤ 0 → compute_icer ca cb qa qb = .negInf) ∧
    (0 < qa - qb → compute_icer ca cb qa qb = .finite ((ca - cb) / (qa - qb))) := by
  refine ⟨fun hq hc => ?_, fun hq hc => ?_, fun hq => ?_⟩
  · simp [compute_icer, hq, hc]
  · simp [compute_icer, hq, not_lt.mpr hc]
  · simp [compute_icer, not_le.mpr hq]

/-- Witness for C1: the three cases of `compute_icer_spec` at concrete inputs. -/
theorem compute_icer_spec_witness :
    compute_icer 5 3 2 2 = .posInf ∧
    compute_icer 3 5 2 2 = .negInf ∧
    compute_icer 5 3 4 2 = .finite 1 := by
  refine ⟨(compute_icer_spec 5 3 2 2).1 (by norm_num) (by norm_num),
          (compute_icer_spec 3 5 2 2).2.1 (by norm_num) (by norm_num), ?_⟩
  have h := (compute_icer_spec 5 3 4 2).2.2 (by norm_num)
  rw [h]; norm_num

/-- Claim C7: `compute_cer` is `+∞` exactly when qaly ≤ 0 (it is a total
function of type `EFloat`, so it can produce neither `NaN` nor an
exception), and equals cost / qaly when qaly > 0. -/
theorem compute_cer_spec (cost qaly : ℚ) :
    (compute_cer cost qaly = .posInf ↔ qaly ≤ 0) ∧
    (0 < qaly → compute_cer cost qaly = .finite (cost / qaly)) := by
  constructor
  · constructor
    · intro h
      by_contra hq
      simp [compute_cer, hq] at h
    · intro h
      simp [compute_cer, h]
  · intro h
    simp [compute_cer, not_le.mpr h]

/-- Witness for C7: `compute_cer` at qaly = 0 and at qaly = 2. -/
theorem compute_cer_spec_witness :
    compute_cer 7 0 = .posInf ∧ compute_cer 7 2 = .finite (7 / 2) :=
  ⟨(compute_cer_spec 7 0).1.mpr (by norm_num),
   (compute_cer_spec 7 2).2 (by norm_num)⟩

/-- Claim C6: `compute_total_cost` is the pure linear combination
icu·icu_rate + ward·ward_rate + setup + ecmo·daily_rate. -/
theorem compute_total_cost_spec (m : Model) (icu ward ecmo : ℚ)
    (h1 : 0 ≤ icu) (h2 : 0 ≤ ward) (h3 : 0 ≤ ecmo) :
    compute_total_cost m icu ward ecmo =
      icu * m.icu_cost_per_day + ward * m.ward_cost_per_day +
        m.ecmo_setup_cost + ecmo * m.ecmo_daily_consumable := by
  unfold compute_total_cost
  ring

/-- Witness for C6: with the default rates 30000/8000/15000 and setup
100000, inputs (10, 5, 7) give exactly 545000. -/
theorem compute_total_cost_spec_witness :
    compute_total_cost defaultModel 10 5 7 = 545000 := by
  rw [compute_total_cost_spec defaultModel 10 5 7 (by norm_num) (by norm_num) (by norm_num)]
  norm_num [defaultModel]

/-- Counterexample to claim C2: with the map
{icu_cost_per_day ↦ (20000, 30000, 40000), survival_rate ↦ (0.3, 0.5, 0.7)},
the row for (survival_rate, low) — index 3 — reports total_cost 645000,
because the icu_cost_per_day attribute is still at the previously assigned
high value 40000; with every other parameter at its base-case value the
claim demands 545000. -/
theorem sensitivity_config_leak_cex :
    (sensitivity_analysis defaultModel ⟨10, 5, 7, 1/2⟩
        [(.icu_cost_per_day, 20000, 30000, 40000),
         (.survival_rate, 3/10, 1/2, 7/10)]).2.map SensRow.total_cost =
      [445000, 545000, 645000, 645000, 645000, 645000] ∧
    compute_total_cost defaultModel 10 5 7 = 545000 ∧
    (645000 : ℚ) ≠ 545000 := by
  refine ⟨?_, ?_, by norm_num⟩
  · norm_num [sensitivity_analysis, sensScenario, applyParam,
      compute_total_cost, compute_qaly, compute_cer, defaultModel]
  · norm_num [compute_total_cost, defaultModel]

/-- Claim C2 as amended: a fresh copy of the base case is used for every
row, but configuration-override parameters mutate the shared model without
being reset; a row is therefore evaluated with every other parameter at its
base-case value only when no configuration-override parameter precedes it.
In particular, when every parameter in the map is one of the four case
fields, every row is computed from the unmodified model with only that
row's parameter substituted, and the model is unchanged afterwards. -/
theorem sensitivity_case_only_isolated (m : Model) (base : Case)
    (params : List (ParamName × ℚ × ℚ × ℚ))
    (h : ∀ pr ∈ params, isCaseKey pr.1 = true) :
    (sensitivity_analysis m base params).1 = m ∧
    (sensitivity_analysis m base params).2 = params.flatMap (fun pr =>
      [sensRowAt m base pr.1 pr.2.1 ("low"),
       sensRowAt m base pr.1 pr.2.2.1 ("base"),
       sensRowAt m base pr.1 pr.2.2.2 ("high")]) := by
  induction params with
  | nil => exact ⟨rfl, rfl⟩
  | cons pr rest ih =>
    obtain ⟨p, lo, bas, hi⟩ := pr
    have hp : isCaseKey p = true := h _ (List.mem_cons_self _ _)
    have hrest : ∀ q ∈ rest, isCaseKey q.1 = true :=
      fun q hq => h q (List.mem_cons_of_mem _ hq)
    have h1 : (sensScenario m base p lo ("low")).1 = m :=
      applyParam_model_of_caseKey m base p lo hp
    have h2 : (sensScenario m base p bas ("base")).1 = m :=
      applyParam_model_of_caseKey m base p bas hp
    have h3 : (sensScenario m base p hi ("high")).1 = m :=
      applyParam_model_of_caseKey m base p hi hp
    obtain ⟨ihm, ihr⟩ := ih hrest
    constructor
    · show (sensitivity_analysis
        (sensScenario (sensScenario (sensScenario m base p lo ("low")).1
          base p bas ("base")).1 base p hi ("high")).1 base rest).1 = m
      rw [h1, h2, h3, ihm]
    · show (sensScenario m base p lo ("low")).2 ::
        (sensScenario (sensScenario m base p lo ("low")).1 base p bas ("base")).2 ::
        (sensScenario (sensScenario (sensScenario m base p lo ("low")).1
          base p bas ("base")).1 base p hi ("high")).2 ::
        (sensitivity_analysis (sensScenario (sensScenario
          (sensScenario m base p lo ("low")).1 base p bas ("base")).1
          base p hi ("high")).1 base rest).2 = _
      rw [h1, h2, h3, ihr]
      rfl

/-- Witness for the amended C2: a single case-field parameter map. -/
theorem sensitivity_case_only_isolated_witness :
    (sensitivity_analysis defaultModel ⟨10, 5, 7, 1/2⟩
      [(.survival_rate, 3/10, 1/2, 7/10)]).1 = defaultModel ∧
    (sensitivity_analysis defaultModel ⟨10, 5, 7, 1/2⟩
      [(.survival_rate, 3/10, 1/2, 7/10)]).2 =
      ([((ParamName.survival_rate : ParamName), (3/10 : ℚ), (1/2 : ℚ), (7/10 : ℚ))]).flatMap
        (fun pr =>
          [sensRowAt defaultModel ⟨10, 5, 7, 1/2⟩ pr.1 pr.2.1 ("low"),
           sensRowAt defaultModel ⟨10, 5, 7, 1/2⟩ pr.1 pr.2.2.1 ("base"),
           sensRowAt defaultModel ⟨10, 5, 7, 1/2⟩ pr.1 pr.2.2.2 ("high")]) :=
  sensitivity_case_only_isolated defaultModel ⟨10, 5, 7, 1/2⟩
    [(.survival_rate, 3/10, 1/2, 7/10)] (by decide)

/-- Claim C3: two PSA runs with identical base case, parameter
distributions, simulation count and seed produce exactly identical output
tables: the pre-existing global generator state — the only ambient state
that can differ between the two runs — is discarded by
`np.random.seed(seed)`, after which every draw is a deterministic state
transition taken in a fixed order. -/
theorem psa_reproducible (g0 g1 : RngState) (m : Model) (base : Case)
    (dists : List (ParamName × Dist)) (n seed : ℕ) :
    (probabilistic_sensitivity_analysis g0 m base dists n seed).1 =
      (probabilistic_sensitivity_analysis g1 m base dists n seed).1 := rfl

/-- The warnings emitted by the sampling loop depend only on the declared
distribution kinds, not on the model, case, or generator state. -/
theorem psaSampleParams_warnings (l : List (ParamName × Dist)) :
    ∀ (m : Model) (c : Case) (g : RngState),
      (psaSampleParams m c g l).2.2.2 = warnMsgs l := by
  induction l with
  | nil => intro m c g; rfl
  | cons pd rest ih =>
    intro m c g
    obtain ⟨p, d⟩ := pd
    cases d <;> simp [psaSampleParams, warnMsgs, ih]

/-- Removing an unknown-kind entry does not change the sampling loop's
model, case, or generator state. -/
theorem psaSampleParams_skip_unknown (l1 : List (ParamName × Dist)) :
    ∀ (m : Model) (c : Case) (g : RngState) (p : ParamName) (kind : String)
      (ps : List ℚ) (l2 : List (ParamName × Dist)),
      (psaSampleParams m c g (l1 ++ (p, Dist.unknown kind ps) :: l2)).1 =
        (psaSampleParams m c g (l1 ++ l2)).1 ∧
      (psaSampleParams m c g (l1 ++ (p, Dist.unknown kind ps) :: l2)).2.1 =
        (psaSampleParams m c g (l1 ++ l2)).2.1 ∧
      (psaSampleParams m c g (l1 ++ (p, Dist.unknown kind ps) :: l2)).2.2.1 =
        (psaSampleParams m c g (l1 ++ l2)).2.2.1 := by
  induction l1 with
  | nil =>
    intro m c g p kind ps l2
    exact ⟨rfl, rfl, rfl⟩
  | cons pd rest ih =>
    intro m c g p kind ps l2
    obtain ⟨q, d⟩ := pd
    cases d <;> simpa [psaSampleParams] using ih _ _ _ p kind ps l2

/-- `warnMsgs` distributes over append. -/
theorem warnMsgs_append (l1 l2 : List (ParamName × Dist)) :
    warnMsgs (l1 ++ l2) = warnMsgs l1 ++ warnMsgs l2 := by
  induction l1 with
  | nil => rfl
  | cons pd rest ih =>
    obtain ⟨q, d⟩ := pd
    cases d <;> simp [warnMsgs, ih]

/-- Claim C8: a parameter whose declared distribution kind is not one of
normal / lognormal / gamma / beta / uniform does not make the run fail:
the sampling loop's resulting model, case copy and generator state are
exactly those of the run without that entry — the parameter is neither
perturbed nor clamped and every recognized parameter is sampled exactly as
before — and the warning for the unknown kind is emitted in position. -/
theorem psa_unknown_kind_recoverable (m : Model) (c : Case) (g : RngState)
    (l1 : List (ParamName × Dist)) (p : ParamName) (kind : String) (ps : List ℚ)
    (l2 : List (ParamName × Dist)) :
    (psaSampleParams m c g (l1 ++ (p, Dist.unknown kind ps) :: l2)).1 =
      (psaSampleParams m c g (l1 ++ l2)).1 ∧
    (psaSampleParams m c g (l1 ++ (p, Dist.unknown kind ps) :: l2)).2.1 =
      (psaSampleParams m c g (l1 ++ l2)).2.1 ∧
    (psaSampleParams m c g (l1 ++ (p, Dist.unknown kind ps) :: l2)).2.2.1 =
      (psaSampleParams m c g (l1 ++ l2)).2.2.1 ∧
    (psaSampleParams m c g (l1 ++ (p, Dist.unknown kind ps) :: l2)).2.2.2 =
      warnMsgs l1 ++ unknownMsg kind :: warnMsgs l2 := by
  obtain ⟨h1, h2, h3⟩ := psaSampleParams_skip_unknown l1 m c g p kind ps l2
  refine ⟨h1, h2, h3, ?_⟩
  rw [psaSampleParams_warnings, warnMsgs_append]
  rfl

/-- The discounted-horizon sum is nonnegative for a nonnegative rate. -/
theorem voiDiscountSum_nonneg (r : ℚ) (h : 0 ≤ r) (n : ℕ) :
    0 ≤ voiDiscountSum r n := by
  refine List.sum_nonneg ?_
  intro x hx
  obtain ⟨t, _, rfl⟩ := List.mem_map.mp hx
  have hpos : (0 : ℚ) < (1 + r) ^ t := pow_pos (by linarith) t
  positivity

/-- Claim C9: EVPI per person and population EVPI are nonnegative for any
nonempty PSA table, nonnegative population size and nonnegative discount
rate, and EVPI per person equals `max(0, max(NMB) - mean(NMB))`. -/
theorem voi_evpi_nonneg (m : Model) (rows : List PSAIter) (wtp : ℚ)
    (pop : ℤ) (horizon : ℕ) (hrows : rows ≠ []) (hpop : 0 ≤ pop)
    (hr : 0 ≤ m.discount_rate) :
    0 ≤ (value_of_information_analysis m rows wtp pop horizon).evpi_per_person ∧
    0 ≤ (value_of_information_analysis m rows wtp pop horizon).evpi_population ∧
    (value_of_information_analysis m rows wtp pop horizon).evpi_per_person =
      max 0 (listMax (nmbSeries rows wtp) - listMean (nmbSeries rows wtp)) := by
  refine ⟨le_max_left 0 _, ?_, rfl⟩
  have hperson : (0 : ℚ) ≤
      max 0 (listMax (nmbSeries rows wtp) - listMean (nmbSeries rows wtp)) :=
    le_max_left 0 _
  have hpopq : (0 : ℚ) ≤ (pop : ℚ) := by exact_mod_cast hpop
  have hdisc := voiDiscountSum_nonneg m.discount_rate hr horizon
  exact mul_nonneg (mul_nonneg hperson hpopq) hdisc

/-- Witness for C9: a one-row PSA table with the default model. -/
theorem voi_evpi_nonneg_witness :
    0 ≤ (value_of_information_analysis defaultModel
      [psaIterRow 0 defaultModel ⟨10, 5, 7, 1/2⟩] 1500000 1000 5).evpi_per_person ∧
    0 ≤ (value_of_information_analysis defaultModel
      [psaIterRow 0 defaultModel ⟨10, 5, 7, 1/2⟩] 1500000 1000 5).evpi_population ∧
    (value_of_information_analysis defaultModel
      [psaIterRow 0 defaultModel ⟨10, 5, 7, 1/2⟩] 1500000 1000 5).evpi_per_person =
      max 0 (listMax (nmbSeries [psaIterRow 0 defaultModel ⟨10, 5, 7, 1/2⟩] 1500000) -
        listMean (nmbSeries [psaIterRow 0 defaultModel ⟨10, 5, 7, 1/2⟩] 1500000)) :=
  voi_evpi_nonneg defaultModel [psaIterRow 0 defaultModel ⟨10, 5, 7, 1/2⟩]
    1500000 1000 5 (by simp) (by norm_num) (by norm_num [defaultModel])

/-- The icer field of a budget-year row is the guarded ratio. -/
theorem budgetYearRow_icer (m : Model) (cur scenNew : Case) (pop : ℤ)
    (ur : ℚ) (years year : ℕ) :
    (budgetYearRow m cur scenNew pop ur years year).icer =
      (if 0 < (budgetYearRow m cur scenNew pop ur years year).incremental_qaly
       then EFloat.finite
         ((budgetYearRow m cur scenNew pop ur years year).incremental_budget /
           (budgetYearRow m cur scenNew pop ur years year).incremental_qaly)
       else EFloat.posInf) := rfl

/-- Claim C10: in every budget-impact row, `icer` is the ratio of
incremental budget to incremental QALY when the latter is positive and the
`+∞` sentinel whenever it is ≤ 0 — also when the incremental budget is
negative — so the per-year budget ICER never takes the `-∞` dominant
sentinel of `compute_icer`. -/
theorem budget_icer_never_negInf (m : Model) (cur scenNew : Case) (pop : ℤ)
    (ur : ℚ) (years : ℕ) :
    ∀ row ∈ budget_impact_analysis m cur scenNew pop ur years,
      (0 < row.incremental_qaly →
        row.icer = .finite (row.incremental_budget / row.incremental_qaly)) ∧
      (row.incremental_qaly ≤ 0 → row.icer = .posInf) ∧
      row.icer ≠ .negInf := by
  intro row hrow
  obtain ⟨k, _, rfl⟩ := List.mem_map.mp hrow
  refine ⟨fun h => ?_, fun h => ?_, ?_⟩
  · rw [budgetYearRow_icer, if_pos h]
  · rw [budgetYearRow_icer, if_neg (not_lt.mpr h)]
  · rw [budgetYearRow_icer]
    split <;> simp

/-- Witness for C10: identical scenarios give zero incremental QALY, and
the first year's icer is `+∞`, not `-∞`. -/
theorem budget_icer_never_negInf_witness :
    (budgetYearRow defaultModel ⟨10, 5, 7, 1/2⟩ ⟨10, 5, 7, 1/2⟩ 100 (1/2) 5 1).icer =
      EFloat.posInf ∧
    (budgetYearRow defaultModel ⟨10, 5, 7, 1/2⟩ ⟨10, 5, 7, 1/2⟩ 100 (1/2) 5 1).icer ≠
      EFloat.negInf := by
  have hmem : budgetYearRow defaultModel ⟨10, 5, 7, 1/2⟩ ⟨10, 5, 7, 1/2⟩ 100 (1/2) 5 1 ∈
      budget_impact_analysis defaultModel ⟨10, 5, 7, 1/2⟩ ⟨10, 5, 7, 1/2⟩ 100 (1/2) 5 :=
    List.mem_map.mpr ⟨0, by simp, rfl⟩
  have h := budget_icer_never_negInf defaultModel ⟨10, 5, 7, 1/2⟩ ⟨10, 5, 7, 1/2⟩
    100 (1/2) 5 _ hmem
  refine ⟨h.2.1 ?_, h.2.2⟩
  show (budgetYearRow defaultModel ⟨10, 5, 7, 1/2⟩ ⟨10, 5, 7, 1/2⟩
    100 (1/2) 5 1).incremental_qaly ≤ 0
  show (compute_qaly defaultModel (1/2) 1 - compute_qaly defaultModel (1/2) 1) *
    ((pyInt ((100 : ℚ) * min ((1/2) * ((1 : ℚ) / (5 : ℚ))) 1) : ℤ) : ℚ) ≤ 0
  simp

/-- Counterexample to claim C4: population 10, uptake_rate 0.5, 2 years.
In year 1 the uptake is 0.25, the claim demands n_new = 10·0.25 = 2.5 and
n_new + n_current = 10, but the code truncates: n_new = int(2.5) = 2,
n_current = int(7.5) = 7, and 2 + 7 = 9 ≠ 10. -/
theorem budget_split_truncation_cex :
    (budget_impact_analysis defaultModel ⟨10, 5, 7, 1/2⟩ ⟨10, 5, 7, 1/2⟩ 10 (1/2) 2).map
        (fun r => (r.n_new_intervention, r.n_current_practice)) = [(2, 7), (5, 5)] ∧
    (10 : ℚ) * min ((1/2) * ((1 : ℚ) / (2 : ℚ))) 1 = 5/2 ∧
    ((2 : ℤ) : ℚ) ≠ (5/2 : ℚ) ∧
    (2 : ℤ) + 7 ≠ (10 : ℤ) := by
  refine ⟨?_, by norm_num, by norm_num, by norm_num⟩
  norm_num [budget_impact_analysis, budgetYearRow, pyInt, List.range_succ]

/-- `int(x)` agrees with the floor on nonnegative values. -/
theorem pyInt_eq_floor (q : ℚ) (h : 0 ≤ q) : pyInt q = ⌊q⌋ := by
  simp [pyInt, not_lt.mpr h]

/-- Floors of the two parts of an integer split differ from the integer by
at most one. -/
theorem floor_split_bounds (x y : ℚ) (n : ℤ) (hxy : x + y = (n : ℚ)) :
    n - 1 ≤ ⌊x⌋ + ⌊y⌋ ∧ ⌊x⌋ + ⌊y⌋ ≤ n := by
  constructor
  · have hx := Int.lt_floor_add_one x
    have hy := Int.lt_floor_add_one y
    have hq : (n : ℚ) < ((⌊x⌋ + ⌊y⌋ + 2 : ℤ) : ℚ) := by
      push_cast
      rw [← hxy]
      linarith
    have hz : n < ⌊x⌋ + ⌊y⌋ + 2 := by exact_mod_cast hq
    omega
  · have hx := Int.floor_le x
    have hy := Int.floor_le y
    have hq : ((⌊x⌋ + ⌊y⌋ : ℤ) : ℚ) ≤ (n : ℚ) := by
      push_cast
      rw [← hxy]
      linarith
    exact_mod_cast hq

/-- Claim C4 as amended: the uptake fraction of year y is exactly
`min(uptake_rate·y/years, 1)`, and the population is split by the
truncated counts `n_new = int(population·uptake)` and
`n_current = int(population·(1-uptake))`; their sum is therefore at most
the population and falls short by at most one patient (equality only when
`population·uptake` is an integer). -/
theorem budget_uptake_split (m : Model) (cur scenNew : Case) (pop : ℤ)
    (ur : ℚ) (years : ℕ) (hur : 0 ≤ ur) (hpop : 0 ≤ pop) :
    ∀ row ∈ budget_impact_analysis m cur scenNew pop ur years,
      row.uptake_rate = min (ur * ((row.year : ℚ) / (years : ℚ))) 1 ∧
      row.n_new_intervention = pyInt ((pop : ℚ) * row.uptake_rate) ∧
      row.n_current_practice = pyInt ((pop : ℚ) * (1 - row.uptake_rate)) ∧
      pop - 1 ≤ row.n_new_intervention + row.n_current_practice ∧
      row.n_new_intervention + row.n_current_practice ≤ pop := by
  intro row hrow
  obtain ⟨k, _, rfl⟩ := List.mem_map.mp hrow
  have hu0 : (0 : ℚ) ≤ min (ur * (((k + 1 : ℕ) : ℚ) / (years : ℚ))) 1 := by
    refine le_min ?_ (by norm_num)
    have h1 : (0 : ℚ) ≤ ((k + 1 : ℕ) : ℚ) / (years : ℚ) := by positivity
    exact mul_nonneg hur h1
  have hu1 : min (ur * (((k + 1 : ℕ) : ℚ) / (years : ℚ))) 1 ≤ 1 := min_le_right _ _
  have hpopq : (0 : ℚ) ≤ (pop : ℚ) := by exact_mod_cast hpop
  have ha : (0 : ℚ) ≤ (pop : ℚ) * min (ur * (((k + 1 : ℕ) : ℚ) / (years : ℚ))) 1 :=
    mul_nonneg hpopq hu0
  have hb : (0 : ℚ) ≤ (pop : ℚ) * (1 - min (ur * (((k + 1 : ℕ) : ℚ) / (years : ℚ))) 1) :=
    mul_nonneg hpopq (by linarith)
  have hsum : (pop : ℚ) * min (ur * (((k + 1 : ℕ) : ℚ) / (years : ℚ))) 1 +
      (pop : ℚ) * (1 - min (ur * (((k + 1 : ℕ) : ℚ) / (years : ℚ))) 1) = (pop : ℚ) := by
    ring
  obtain ⟨hlow, hhigh⟩ := floor_split_bounds _ _ pop hsum
  refine ⟨rfl, rfl, rfl, ?_, ?_⟩
  · show pop - 1 ≤ pyInt ((pop : ℚ) * min (ur * (((k + 1 : ℕ) : ℚ) / (years : ℚ))) 1) +
      pyInt ((pop : ℚ) * (1 - min (ur * (((k + 1 : ℕ) : ℚ) / (years : ℚ))) 1))
    rw [pyInt_eq_floor _ ha, pyInt_eq_floor _ hb]
    exact hlow
  · show pyInt ((pop : ℚ) * min (ur * (((k + 1 : ℕ) : ℚ) / (years : ℚ))) 1) +
      pyInt ((pop : ℚ) * (1 - min (ur * (((k + 1 : ℕ) : ℚ) / (years : ℚ))) 1)) ≤ pop
    rw [pyInt_eq_floor _ ha, pyInt_eq_floor _ hb]
    exact hhigh

/-- Witness for the amended C4: year 1 of the truncation counterexample's
run satisfies the amended bounds (2 + 7 lies in [9, 10]). -/
theorem budget_uptake_split_witness :
    (budgetYearRow defaultModel ⟨10, 5, 7, 1/2⟩ ⟨10, 5, 7, 1/2⟩ 10 (1/2) 2 1).uptake_rate =
      min ((1/2) * (((budgetYearRow defaultModel ⟨10, 5, 7, 1/2⟩ ⟨10, 5, 7, 1/2⟩
        10 (1/2) 2 1).year : ℚ) / ((2 : ℕ) : ℚ))) 1 ∧
    (budgetYearRow defaultModel ⟨10, 5, 7, 1/2⟩ ⟨10, 5, 7, 1/2⟩ 10 (1/2) 2 1).n_new_intervention =
      pyInt (((10 : ℤ) : ℚ) * (budgetYearRow defaultModel ⟨10, 5, 7, 1/2⟩ ⟨10, 5, 7, 1/2⟩
        10 (1/2) 2 1).uptake_rate) ∧
    (budgetYearRow defaultModel ⟨10, 5, 7, 1/2⟩ ⟨10, 5, 7, 1/2⟩ 10 (1/2) 2 1).n_current_practice =
      pyInt (((10 : ℤ) : ℚ) * (1 - (budgetYearRow defaultModel ⟨10, 5, 7, 1/2⟩ ⟨10, 5, 7, 1/2⟩
        10 (1/2) 2 1).uptake_rate)) ∧
    (10 : ℤ) - 1 ≤ (budgetYearRow defaultModel ⟨10, 5, 7, 1/2⟩ ⟨10, 5, 7, 1/2⟩
        10 (1/2) 2 1).n_new_intervention +
      (budgetYearRow defaultModel ⟨10, 5, 7, 1/2⟩ ⟨10, 5, 7, 1/2⟩ 10 (1/2) 2 1).n_current_practice ∧
    (budgetYearRow defaultModel ⟨10, 5, 7, 1/2⟩ ⟨10, 5, 7, 1/2⟩ 10 (1/2) 2 1).n_new_intervention +
      (budgetYearRow defaultModel ⟨10, 5, 7, 1/2⟩ ⟨10, 5, 7, 1/2⟩ 10 (1/2) 2 1).n_current_practice ≤
      (10 : ℤ) :=
  budget_uptake_split defaultModel ⟨10, 5, 7, 1/2⟩ ⟨10, 5, 7, 1/2⟩ 10 (1/2) 2
    (by norm_num) (by norm_num) _ (List.mem_map.mpr ⟨0, by simp, rfl⟩)

/-- Counterexample to claim C5: after a one-way analysis over
{icu_cost_per_day ↦ (20000, 30000, 40000)} the attribute is left at the
high value 40000, not restored to its pre-call value 30000. -/
theorem sensitivity_no_restore_cex :
    (sensitivity_analysis defaultModel ⟨10, 5, 7, 1/2⟩
      [(.icu_cost_per_day, 20000, 30000, 40000)]).1.icu_cost_per_day = 40000 ∧
    defaultModel.icu_cost_per_day = 30000 ∧
    (40000 : ℚ) ≠ 30000 := by
  refine ⟨by decide, by decide, by norm_num⟩

/-- Claim C5 as amended: the shared-state mutation is not reverted — after
the call, the model equals the starting model with each configuration
parameter in the map overwritten (in order) by that parameter's high value;
attributes not named in the map, and all attributes when only case-field
parameters are named, keep their pre-call values. -/
theorem sensitivity_final_model (m : Model) (base : Case)
    (params : List (ParamName × ℚ × ℚ × ℚ)) :
    (sensitivity_analysis m base params).1 =
      params.foldl (fun acc pr => (applyParam acc base pr.1 pr.2.2.2).1) m := by
  induction params generalizing m with
  | nil => rfl
  | cons pr rest ih =>
    obtain ⟨p, lo, bas, hi⟩ := pr
    show (sensitivity_analysis (sensScenario (sensScenario
        (sensScenario m base p lo ("low")).1 base p bas ("base")).1
        base p hi ("high")).1 base rest).1 = _
    have hcollapse : (sensScenario (sensScenario
        (sensScenario m base p lo ("low")).1 base p bas ("base")).1
        base p hi ("high")).1 = (applyParam m base p hi).1 := by
      show (applyParam (applyParam (applyParam m base p lo).1 base p bas).1
        base p hi).1 = (applyParam m base p hi).1
      rw [applyParam_model_overwrite _ _ _ base p bas hi]
      exact applyParam_model_overwrite m base base base p lo hi
    rw [hcollapse, ih]
    rfl

end ECMO
